import Mathlib

/-
  Verification development for the blueprint flooring estimator.

  The JavaScript sources are embedded shallowly:
  * JS numbers are idealised as exact rationals extended with the special
    values NaN, Infinity and -Infinity (`JNum`); `Math.sqrt` is modelled by
    `Real.sqrt`, so the few definitions touching square roots live in `ℝ`.
  * Loose JS values that can sit in an `areaSqFt` field of imported data are
    modelled by `JAtom`; a string atom carries the result of JS string→number
    coercion (`none` for a string whose `Number(...)` is NaN).
  * DOM interaction (window.prompt, the feet/inches modal) is modelled by
    passing the user's responses as explicit arguments; `null` results of a
    cancelled prompt become `Option.none`.
  * Module-level mutable state of each app variant is a `structure`, and each
    event handler is a state-transforming function.

  Namespaces:
  * `Flooring`       — shared JS value model and geometry helpers.
  * `Flooring.Est`   — the rect/circle/tri estimator (app.js and the
                       identical core of the project-saving variant), with
                       export/import of the full estimator state.
  * `Flooring.Poly`  — the feet+inches polygon variant (heron / trapezoid /
                       manual-area polygon saving).
  * `Flooring.Shoe`  — the shoelace polygon variant (pixel-area × scale²).
-/

namespace Flooring

/-- A JavaScript number: an exact rational, or one of the special values. -/
inductive JNum where
  | num (q : ℚ)
  | nan
  | inf
  | ninf
deriving DecidableEq, Repr

/-- JS `Number.isFinite`. -/
def JNum.isFinite : JNum → Bool
  | .num _ => true
  | _ => false

/-- JS addition on numbers (`NaN` absorbs; opposite infinities give `NaN`). -/
def jadd : JNum → JNum → JNum
  | .nan, _ => .nan
  | _, .nan => .nan
  | .inf, .ninf => .nan
  | .ninf, .inf => .nan
  | .inf, _ => .inf
  | _, .inf => .inf
  | .ninf, _ => .ninf
  | _, .ninf => .ninf
  | .num a, .num b => .num (a + b)

/-- The JS idiom `x || 0` on a number: `NaN` and `0` are falsy. -/
def jsOr0 : JNum → JNum
  | .nan => .num 0
  | .num q => if q = 0 then .num 0 else .num q
  | .inf => .inf
  | .ninf => .ninf

/-- A loose JS value as it may appear in an `areaSqFt` field of imported
data.  A string atom records the value of JS string→number coercion
(`none` when `Number(s)` is NaN, i.e. a non-numeric string). -/
inductive JAtom where
  | jnum (n : JNum)
  | jstr (numVal : Option ℚ)
  | jnull
  | jundef
  | jbool (b : Bool)
deriving DecidableEq, Repr

/-- JS `Number(x)` coercion. -/
def toNumber : JAtom → JNum
  | .jnum n => n
  | .jstr (some q) => .num q
  | .jstr none => .nan
  | .jnull => .num 0
  | .jundef => .nan
  | .jbool true => .num 1
  | .jbool false => .num 0

/-- One field's fate under `JSON.parse(JSON.stringify(...))`: `NaN` and
`±Infinity` serialise to `null`; an `undefined` property is dropped, so
reading it back yields `undefined` again. -/
def jsonCopyAtom : JAtom → JAtom
  | .jnum (.num q) => .jnum (.num q)
  | .jnum _ => .jnull
  | .jstr v => .jstr v
  | .jnull => .jnull
  | .jundef => .jundef
  | .jbool b => .jbool b

/-- Rounding of `toFixed(2)` (ES spec: nearest, ties toward the larger
candidate after the sign is split off). -/
def round2 (q : ℚ) : ℚ :=
  if q < 0 then -((⌊(-q) * 100 + 1/2⌋ : ℤ) : ℚ) / 100
  else ((⌊q * 100 + 1/2⌋ : ℤ) : ℚ) / 100

/-- Two-digit decimal field. -/
def pad2 (n : ℕ) : String :=
  if n < 10 then "0" ++ toString n else toString n

/-- Source `fmt2(n)`: `Number(n)` (done by the caller in our model), then
`'0.00'` for non-finite values, else `toFixed(2)`. -/
def fmt2 : JNum → String
  | .num q =>
      let n : ℤ := if q < 0 then -⌊(-q) * 100 + 1/2⌋ else ⌊q * 100 + 1/2⌋
      (if n < 0 then "-" else "") ++ toString (n.natAbs / 100) ++ "." ++ pad2 (n.natAbs % 100)
  | _ => "0.00"

/-- Numeric value of `Number(fmt2(x))`: the fixed-point string always parses
back to a finite rational. -/
def fmt2Val : JNum → ℚ
  | .num q => round2 q
  | _ => 0

/-- A point in CSS pixel space or in unit space (JS numbers idealised). -/
structure Pt where
  x : ℚ
  y : ℚ
deriving DecidableEq, Repr

/-- Source `clamp01` from app.js: `Math.max(0, Math.min(1, n))`. -/
def clamp01 (n : ℚ) : ℚ := max 0 (min 1 n)

/-- Source `cssToNorm`: the canvas bounding rectangle's width/height are passed
explicitly (`w`, `h`); the source guards them with `Math.max(1, ·)`. -/
def cssToNorm (w h : ℚ) (pt : Pt) : Pt :=
  let w1 := max 1 w
  let h1 := max 1 h
  ⟨clamp01 (pt.x / w1), clamp01 (pt.y / h1)⟩

/-- Source `normToCss`: inverse scale, no clamping. -/
def normToCss (w h : ℚ) (ptN : Pt) : Pt :=
  let w1 := max 1 w
  let h1 := max 1 h
  ⟨ptN.x * w1, ptN.y * h1⟩

/-- Squared Euclidean pixel distance (`dx*dx + dy*dy`). -/
def distSq (a b : Pt) : ℚ :=
  (a.x - b.x) * (a.x - b.x) + (a.y - b.y) * (a.y - b.y)

/-- Source `dist`: `Math.sqrt(dx*dx + dy*dy)`, modelled by `Real.sqrt`. -/
noncomputable def dist (a b : Pt) : ℝ :=
  Real.sqrt ((distSq a b : ℚ) : ℝ)

/-
  ===========================================================================
  `Est`: the rect/circle/tri estimator core.  app.js and the project-saving
  variant (the third unnamed source file) contain textually identical copies
  of `fmt2`, `clamp01`, `cssToNorm`, `normToCss`, `dist`, `promptLabel`,
  `promptNumber`, `saveRect`, `saveCircle`, `saveTriangle`, the mouse
  handlers, the running-total reduce and `getEstimatorSnapshot`; the
  project-saving variant additionally defines `exportFullEstimatorState` and
  `importFullEstimatorState`.  They are embedded once here.
  ===========================================================================
-/

namespace Est

open Flooring

/-- The exact value of the JS double `Math.PI`. -/
def jsPI : ℚ := 884279719003555 / 281474976710656

/-- The `geo` payload of a committed selection.  All coordinates are plain
numbers, so a JSON round trip is the identity on it; the circle radius is
real-valued because the source derives it through `Math.sqrt`. -/
inductive Geo where
  | rect (p1 p2 : Pt)
  | circle (c : Pt) (r : ℝ)
  | tri (a b c : Pt)
  | poly (points : List Pt)

/-- The `real` payload of a committed selection. -/
inductive RealMeas where
  | rectR (widthFt heightFt : ℚ)
  | circleR (radiusFt : ℚ)
  | triR (baseFt heightFt : ℚ)
deriving DecidableEq, Repr

/-- A ledger entry as pushed by `saveRect`/`saveCircle`/`saveTriangle`:
the object literal has exactly the fields `type`, `label`, `geo`, `real`,
`areaSqFt` (and no `id`).  `areaSqFt` is a loose value because
`importFullEstimatorState` writes whatever coercion produced into it. -/
structure Sel where
  type : String
  label : String
  geo : Geo
  real : RealMeas
  areaSqFt : JAtom

/-- The field names of the object literal committed to the ledger by the
save functions (in source order). -/
def selectionFieldNames : List String :=
  ["type", "label", "geo", "real", "areaSqFt"]

/-- The running total computed identically by `recomputeTotals` and
`getEstimatorSnapshot`: `selections.reduce((sum, s) => sum + (Number(s.areaSqFt) || 0), 0)`. -/
def recomputeTotal (sels : List Sel) : JNum :=
  sels.foldl (fun acc s => jadd acc (jsOr0 (toNumber s.areaSqFt))) (JNum.num 0)

/-- One item of the snapshot's `selections` array:
`{label, type, areaSqFt: Number(fmt2(s.areaSqFt)), real}`. -/
structure SnapItem where
  label : String
  type : String
  areaSqFt : JNum
  real : RealMeas
deriving DecidableEq

/-- The read-only snapshot handed to the chat widget. -/
structure Snapshot where
  totalSqFt : JNum
  selectionsCount : ℕ
  selections : List SnapItem
deriving DecidableEq

/-- Source `getEstimatorSnapshot` of the snapshot projection (`Number(fmt2(x))` is modelled by
`JNum.num (fmt2Val x)`, the numeric value of the fixed-point string). -/
def getEstimatorSnapshot (sels : List Sel) : Snapshot :=
  { totalSqFt := JNum.num (fmt2Val (recomputeTotal sels))
    selectionsCount := sels.length
    selections := sels.map fun s =>
      { label := s.label
        type := s.type
        areaSqFt := JNum.num (fmt2Val (toNumber s.areaSqFt))
        real := s.real } }

/-- Source `promptLabel(defaultLabel)`: `userInput` carries the result of
`window.prompt` with the whitespace `.trim()` already applied at the model
boundary (`none` for a cancelled prompt); the source then computes
`(input || '')` and `label || defaultLabel || 'Area'`. -/
def promptLabel (userInput : Option String) (defaultLabel : String) : String :=
  let label := userInput.getD ""
  if label = "" then (if defaultLabel = "" then "Area" else defaultLabel) else label

/-- Source `promptNumber`: the argument is `Number(raw)` for the trimmed prompt
response (a cancelled prompt gives `Number('') = 0`); the source rejects
non-finite and non-positive values with `null`. -/
def promptNumber (n : JNum) : Option ℚ :=
  match n with
  | .num q => if q ≤ 0 then none else some q
  | _ => none

/-- Module-level mutable state of the estimator. -/
structure AppState where
  mode : String
  isDragging : Bool
  dragStart : Option Pt
  dragEnd : Option Pt
  circleCenter : Option Pt
  circleEdge : Option Pt
  triPoints : List Pt
  selections : List Sel
  blueprintDataUrl : Option String
  status : String

/-- Source `saveRect(p1, p2)`; `w`,`h` are the canvas bounding-rect dimensions,
`labelInput` the label-prompt response, `wResp`/`hResp` the numeric values
of the two measurement prompts. -/
def saveRect (w h : ℚ) (labelInput : Option String) (wResp hResp : JNum)
    (p1 p2 : Pt) (st : AppState) : AppState :=
  let label := promptLabel labelInput ("Area " ++ toString (st.selections.length + 1))
  match promptNumber wResp with
  | none => st
  | some widthFt =>
    match promptNumber hResp with
    | none => st
    | some heightFt =>
      let areaSqFt := widthFt * heightFt
      { st with
        selections := st.selections ++
          [{ type := "rect"
             label := label
             geo := Geo.rect (cssToNorm w h p1) (cssToNorm w h p2)
             real := RealMeas.rectR widthFt heightFt
             areaSqFt := JAtom.jnum (JNum.num areaSqFt) }]
        status := "Saved \"" ++ label ++ "\" (" ++ fmt2 (JNum.num areaSqFt) ++
          " sq ft). Rectangle mode: drag to select." }

/-- Source `saveCircle(center, edge)`; `rResp` is the radius-prompt value.
`areaSqFt = Math.PI * r * r` with `Math.PI` the exact double `jsPI`; the
normalised radius divides the pixel radius by `max(1, min(w, h))`. -/
noncomputable def saveCircle (w h : ℚ) (labelInput : Option String) (rResp : JNum)
    (center edge : Pt) (st : AppState) : AppState :=
  let label := promptLabel labelInput ("Area " ++ toString (st.selections.length + 1))
  match promptNumber rResp with
  | none => st
  | some radiusFt =>
    let areaSqFt := jsPI * radiusFt * radiusFt
    let rCss := dist center edge
    let rNorm := rCss / ((max 1 (min w h) : ℚ) : ℝ)
    { st with
      selections := st.selections ++
        [{ type := "circle"
           label := label
           geo := Geo.circle (cssToNorm w h center) rNorm
           real := RealMeas.circleR radiusFt
           areaSqFt := JAtom.jnum (JNum.num areaSqFt) }]
      status := "Saved \"" ++ label ++ "\" (" ++ fmt2 (JNum.num areaSqFt) ++
        " sq ft). Circle mode: drag radius." }

/-- Source `saveTriangle(a, b, c)`; `bResp`/`hResp` are the base/height prompt
values; `areaSqFt = 0.5 * base * height`. -/
def saveTriangle (w h : ℚ) (labelInput : Option String) (bResp hResp : JNum)
    (a b c : Pt) (st : AppState) : AppState :=
  let label := promptLabel labelInput ("Area " ++ toString (st.selections.length + 1))
  match promptNumber bResp with
  | none => st
  | some baseFt =>
    match promptNumber hResp with
    | none => st
    | some heightFt =>
      let areaSqFt := (1/2 : ℚ) * baseFt * heightFt
      { st with
        selections := st.selections ++
          [{ type := "tri"
             label := label
             geo := Geo.tri (cssToNorm w h a) (cssToNorm w h b) (cssToNorm w h c)
             real := RealMeas.triR baseFt heightFt
             areaSqFt := JAtom.jnum (JNum.num areaSqFt) }]
        status := "Saved \"" ++ label ++ "\" (" ++ fmt2 (JNum.num areaSqFt) ++
          " sq ft). Triangle mode: click 3 points." }

/-- The canvas `mouseup` handler of app.js.  `labelInput`, `r1`, `r2` are
the prompt responses `saveRect`/`saveCircle` would consume (`saveCircle`
uses only `r1`). -/
noncomputable def handleMouseUp (w h : ℚ) (labelInput : Option String)
    (r1 r2 : JNum) (st : AppState) : AppState :=
  if !st.isDragging then st else
  let st1 : AppState := { st with isDragging := false }
  let st2 : AppState :=
    if st1.mode = "rect" then
      match st1.dragStart, st1.dragEnd with
      | some a, some b =>
          if dist a b < 6 then { st1 with status := "Drag a bigger rectangle." }
          else saveRect w h labelInput r1 r2 a b st1
      | _, _ => st1
    else st1
  let st3 : AppState :=
    if st2.mode = "circle" then
      match st2.circleCenter, st2.circleEdge with
      | some c, some e =>
          if dist c e < 6 then { st2 with status := "Drag a bigger circle radius." }
          else saveCircle w h labelInput r1 c e st2
      | _, _ => st2
    else st2
  { st3 with dragStart := none, dragEnd := none, circleCenter := none, circleEdge := none }

/-- The value returned by `exportFullEstimatorState`: the selections have
gone through `JSON.parse(JSON.stringify(...))` (identity on everything here
except special numbers in `areaSqFt`). -/
structure ExportedState where
  version : ℕ
  mode : String
  selections : List Sel
  blueprint : Option String
  snapshot : Snapshot

/-- The JSON deep copy of one selection. -/
def jsonCopySel (s : Sel) : Sel :=
  { s with areaSqFt := jsonCopyAtom s.areaSqFt }

/-- Source `exportFullEstimatorState()`. -/
def exportFullEstimatorState (st : AppState) : ExportedState :=
  { version := 1
    mode := st.mode
    selections := st.selections.map jsonCopySel
    blueprint := st.blueprintDataUrl
    snapshot := getEstimatorSnapshot st.selections }

/-- A loose input to `importFullEstimatorState`: `selections = none` models
a `selections` field that is missing or not an array, `mode = none` a
missing mode.  A wholly absent/null `state` object is `Option.none` at the
call site. -/
structure ImportPayload where
  selections : Option (List Sel)
  mode : Option String
  blueprint : Option String

/-- View an exported state as an import payload. -/
def payloadOfExported (es : ExportedState) : ImportPayload :=
  { selections := some es.selections
    mode := some es.mode
    blueprint := es.blueprint }

/-- Source `importFullEstimatorState(state)`.  Throwing `Error('Invalid project
data.')` before any mutation is modelled by `Except.error`: the caller's
state is returned unchanged only through the absence of an `ok` result. -/
def importFullEstimatorState (state : Option ImportPayload) (st : AppState) :
    Except String AppState :=
  match state with
  | none => .error "Invalid project data."
  | some p =>
    match p.selections with
    | none => .error "Invalid project data."
    | some sels =>
      .ok { st with
        selections := sels.map fun s =>
          { type := s.type
            label := if s.label = "" then "" else s.label
            geo := s.geo
            real := s.real
            areaSqFt := JAtom.jnum (jsOr0 (toNumber s.areaSqFt)) }
        mode :=
          match p.mode with
          | some m => if m = "rect" ∨ m = "circle" ∨ m = "tri" then m else st.mode
          | none => st.mode
        isDragging := false
        dragStart := none
        dragEnd := none
        circleCenter := none
        circleEdge := none
        triPoints := []
        blueprintDataUrl := p.blueprint }

/-- The selection-level composite `import ∘ jsonCopy` applied by a full
round trip. -/
def roundtripSel (s : Sel) : Sel :=
  { type := (jsonCopySel s).type
    label := if (jsonCopySel s).label = "" then "" else (jsonCopySel s).label
    geo := (jsonCopySel s).geo
    real := (jsonCopySel s).real
    areaSqFt := JAtom.jnum (jsOr0 (toNumber (jsonCopySel s).areaSqFt)) }

/-- An idle estimator state, used by concrete witnesses. -/
def state0 : AppState :=
  { mode := "rect", isDragging := false, dragStart := none, dragEnd := none
    circleCenter := none, circleEdge := none, triPoints := [], selections := []
    blueprintDataUrl := none, status := "" }

/-- A ledger holding a finite 5 sq ft selection next to an
`Infinity`-poisoned one; such a ledger is reachable by importing a crafted
payload, since the import coercion `Number(x) || 0` keeps `Infinity`. -/
def infPoisonedState : AppState :=
  { state0 with selections :=
      [{ type := "rect", label := "A", geo := Geo.rect ⟨0, 0⟩ ⟨1, 1⟩
         real := RealMeas.rectR 1 5, areaSqFt := JAtom.jnum (JNum.num 5) },
       { type := "rect", label := "B", geo := Geo.rect ⟨0, 0⟩ ⟨1, 1⟩
         real := RealMeas.rectR 1 1, areaSqFt := JAtom.jnum JNum.inf }] }

/-- The snapshot total obtained after a full export/import round trip
(`NaN` signals an import failure and cannot arise from a snapshot). -/
def roundtripTotalOf (st : AppState) : JNum :=
  match importFullEstimatorState (some (payloadOfExported (exportFullEstimatorState st))) st with
  | .ok st' => (getEstimatorSnapshot st'.selections).totalSqFt
  | .error _ => JNum.nan

end Est

/-
  ===========================================================================
  `Poly`: the feet+inches polygon variant of part_004 (lines 1–1030):
  Heron's formula for three sides, an explicit sub-method choice for four
  sides, manual area for five or more; side lengths are entered through the
  feet/inches modal.
  ===========================================================================
-/

/-- A status-bar message; `saved` keeps the interpolated area symbolic
(`Saved "label" (fmt2(area) sq ft).`) because polygon areas are
real-valued. -/
inductive StatusMsg where
  | msg (s : String)
  | saved (label : String) (areaSqFt : ℝ)

namespace Poly

open Flooring

/-- One interaction with the feet/inches length modal: pressing OK with the
given `Number(feetInput.value)`/`Number(inchInput.value)`, or
Cancel/Escape. -/
inductive ModalEvent where
  | ok (feet inches : JNum)
  | cancel

/-- The event loop of `askLengthFeetInches`: an invalid OK shows an error
and leaves the modal open (the next event is processed), Cancel resolves
`null`; an exhausted event list models a modal that is still waiting. -/
def askLengthFeetInches (allowZero : Bool) : List ModalEvent → Option ℚ
  | [] => none
  | ModalEvent.cancel :: _ => none
  | ModalEvent.ok f i :: rest =>
    match f with
    | JNum.num fq =>
      if fq < 0 then askLengthFeetInches allowZero rest
      else
        match i with
        | JNum.num iq =>
          if iq < 0 ∨ 11 < iq then askLengthFeetInches allowZero rest
          else
            let totalFeet := fq + iq / 12
            if allowZero = false ∧ totalFeet ≤ 0 then askLengthFeetInches allowZero rest
            else some totalFeet
        | _ => askLengthFeetInches allowZero rest
    | _ => askLengthFeetInches allowZero rest

/-- The radicand `s*(s-a)*(s-b)*(s-c)` with `s = (a+b+c)/2` of
`heronArea`. -/
def heronInside (a b c : ℚ) : ℚ :=
  let s := (a + b + c) / 2
  s * (s - a) * (s - b) * (s - c)

/-- Source `heronArea(a, b, c)`: `null` when the radicand is not strictly
positive, else `Math.sqrt(inside)`. -/
noncomputable def heronArea (a b c : ℚ) : Option ℝ :=
  if heronInside a b c ≤ 0 then none
  else some (Real.sqrt ((heronInside a b c : ℚ) : ℝ))

/-- Source `trapezoidArea(b1, b2, h) = ((b1+b2)/2)*h`. -/
def trapezoidArea (b1 b2 h : ℚ) : ℚ := ((b1 + b2) / 2) * h

/-- Source `promptAreaSqFt`: argument is `Number((prompt(...) || '').trim())`
(cancellation gives `Number('') = 0`); rejects non-finite and non-positive
values with `null`. -/
def promptAreaSqFt (n : JNum) : Option ℚ :=
  match n with
  | .num q => if q ≤ 0 then none else some q
  | _ => none

/-- The user responses `computePolyAreaFromUser` may consume: the 4-side
sub-method prompt, the three trapezoid modal interactions, and the manual
total-area prompt. -/
structure PolyPrompts where
  choiceRaw : Option String
  trapTop : List ModalEvent
  trapBottom : List ModalEvent
  trapHeight : List ModalEvent
  manualArea : JNum

/-- JS `String.toLowerCase`, written over the character list so that concrete
strings evaluate. -/
def jsToLower (s : String) : String := ⟨s.data.map Char.toLower⟩

/-- JS `raw.startsWith(c)` for a one-character prefix. -/
def jsStartsWithChar (s : String) (c : Char) : Bool :=
  match s.data with
  | [] => false
  | d :: _ => d == c

/-- The 4-side sub-method decoding:
`(raw || '').trim().toLowerCase().startsWith('r'|'t'|'i')`; the whitespace
`.trim()` is applied at the model boundary of the prompt response. -/
def parseChoice (choiceRaw : Option String) : Option String :=
  let raw := jsToLower (choiceRaw.getD "")
  if jsStartsWithChar raw 'r' then some "rectangle"
  else if jsStartsWithChar raw 't' then some "trapezoid"
  else if jsStartsWithChar raw 'i' then some "irregular"
  else none

/-- The `{areaSqFt, method, details}` result of `computePolyAreaFromUser`
(the `details` object is flattened into its sides list and its named
scalar fields). -/
structure PolyComputed where
  areaSqFt : ℝ
  method : String
  detailSides : List ℚ
  detailNums : List (String × ℚ)

/-- Source `computePolyAreaFromUser(sideFeet)`.  The trapezoid branch's sorted
"smart defaults" only pre-fill the modal inputs and do not affect the
returned value, so they are not modelled. -/
noncomputable def computePolyAreaFromUser (sideFeet : List ℚ) (pr : PolyPrompts) :
    Option PolyComputed :=
  if sideFeet.length = 3 then
    match heronArea (sideFeet.getD 0 0) (sideFeet.getD 1 0) (sideFeet.getD 2 0) with
    | none => none
    | some area => some ⟨area, "triangle (3 sides)", sideFeet, []⟩
  else if sideFeet.length = 4 then
    match parseChoice pr.choiceRaw with
    | none => none
    | some choice =>
      if choice = "rectangle" then
        let length := sideFeet.getD 0 0
        let width := sideFeet.getD 1 0
        some ⟨((length * width : ℚ) : ℝ), "rectangle/square (adjacent sides)", sideFeet,
          [("length", length), ("width", width)]⟩
      else if choice = "trapezoid" then
        match askLengthFeetInches false pr.trapTop with
        | none => none
        | some topBase =>
          match askLengthFeetInches false pr.trapBottom with
          | none => none
          | some bottomBase =>
            match askLengthFeetInches false pr.trapHeight with
            | none => none
            | some height =>
              some ⟨((trapezoidArea topBase bottomBase height : ℚ) : ℝ),
                "trapezoid (bases + height)", sideFeet,
                [("topBase", topBase), ("bottomBase", bottomBase), ("height", height)]⟩
      else
        match promptAreaSqFt pr.manualArea with
        | none => none
        | some manual =>
          some ⟨((manual : ℚ) : ℝ), "manual area (irregular quad)", sideFeet,
            [("areaSqFt", manual)]⟩
  else
    match promptAreaSqFt pr.manualArea with
    | none => none
    | some manual =>
      some ⟨((manual : ℚ) : ℝ), "manual area (5+ sides)", sideFeet,
        [("areaSqFt", manual)]⟩

/-- A committed polygon selection of this variant:
`{type: 'poly', label, geo: {points}, real: {sideFeet, method, details},
areaSqFt}`. -/
structure PolySel where
  type : String
  label : String
  geoPoints : List Pt
  realSideFeet : List ℚ
  realMethod : String
  areaSqFt : ℝ

/-- Module state of the polygon variant. -/
structure PolyState where
  selections : List PolySel
  polyPoints : List Pt
  polySideFeet : List ℚ
  polyHover : Option Pt
  status : StatusMsg

/-- Source `finishPolygonAndSave(pointsCss, sideFeet)`. -/
noncomputable def finishPolygonAndSave (w h : ℚ) (pointsCss : List Pt)
    (sideFeet : List ℚ) (pr : PolyPrompts) (labelInput : Option String)
    (st : PolyState) : PolyState :=
  if pointsCss.length < 3 then
    { st with status := .msg "Custom shape needs at least 3 points." }
  else if sideFeet.length ≠ pointsCss.length then
    { st with status := .msg "Polygon sides missing — could not save." }
  else
    match computePolyAreaFromUser sideFeet pr with
    | none => { st with status := .msg "Cancelled (or invalid triangle). Shape not saved." }
    | some computed =>
      let label := Est.promptLabel labelInput ("Area " ++ toString (st.selections.length + 1))
      { st with
        selections := st.selections ++
          [{ type := "poly"
             label := label
             geoPoints := pointsCss.map (cssToNorm w h)
             realSideFeet := sideFeet
             realMethod := computed.method
             areaSqFt := computed.areaSqFt }]
        status := .saved label computed.areaSqFt }

/-- Source `finishPolygonAskClosingAndSave()`: prompts for the closing edge, and
on cancel leaves the draft untouched. -/
noncomputable def finishPolygonAskClosingAndSave (w h : ℚ) (mode : String)
    (closingEvents : List ModalEvent) (pr : PolyPrompts)
    (labelInput : Option String) (st : PolyState) : PolyState :=
  if mode ≠ "poly" then st
  else if st.polyPoints.length < 3 then
    { st with status := .msg "Need at least 3 points to finish a custom shape." }
  else
    match askLengthFeetInches false closingEvents with
    | none => { st with status := .msg "Finish cancelled." }
    | some closingFt =>
      let pts := st.polyPoints
      let sideFeet := st.polySideFeet ++ [closingFt]
      finishPolygonAndSave w h pts sideFeet pr labelInput
        { st with polyPoints := [], polySideFeet := [], polyHover := none }

/-- Prompt responses choosing the rectangle/square sub-method. -/
def rectChoicePrompts : PolyPrompts :=
  { choiceRaw := some "R", trapTop := [], trapBottom := [], trapHeight := []
    manualArea := JNum.num 0 }

/-- An empty polygon-variant state, used by concrete witnesses. -/
def polyState0 : PolyState :=
  { selections := [], polyPoints := [], polySideFeet := [], polyHover := none
    status := .msg "" }

end Poly

/-
  ===========================================================================
  `Shoe`: the shoelace polygon variant of part_004 (lines 1035–end):
  pixel-space shoelace area scaled by the square of an effective
  feet-per-pixel ratio.
  ===========================================================================
-/

namespace Shoe

open Flooring

/-- Source `polygonAreaPx(points)`: `|Σ (x_i·y_{i+1} − x_{i+1}·y_i)| / 2` over the
cyclically closed list (`j = (i+1) % n`), `0` for fewer than 3 points. -/
def polygonAreaPx (points : List Pt) : ℚ :=
  if points.length < 3 then 0
  else
    let n := points.length
    let s := (List.range n).foldl
      (fun acc i =>
        let p := points.getD i ⟨0, 0⟩
        let q := points.getD ((i + 1) % n) ⟨0, 0⟩
        acc + (p.x * q.y - q.x * p.y)) 0
    |s| / 2

/-- The pixel lengths of the cyclically closed edges (`sidePx`). -/
noncomputable def pixelEdgeLengths (points : List Pt) : List ℝ :=
  (List.range points.length).map fun i =>
    dist (points.getD i ⟨0, 0⟩) (points.getD ((i + 1) % points.length) ⟨0, 0⟩)

/-- The per-edge prompting loop of `savePolygon`: side `i` uses response
`i` (`Number` of the raw prompt input); `promptNumber` rejecting a response
cancels the whole save. -/
def collectSides : ℕ → List JNum → Option (List ℚ)
  | 0, _ => some []
  | _ + 1, [] => none
  | n + 1, r :: rest =>
    match Est.promptNumber r with
    | none => none
    | some ft => (collectSides n rest).map (ft :: ·)

/-- A committed selection of the shoelace variant:
`{type: 'poly', label, geo: {points}, real: {sideFeet, ftPerPx},
areaSqFt}`. -/
structure ShoeSel where
  type : String
  label : String
  geoPoints : List Pt
  realSideFeet : List ℚ
  realFtPerPx : ℝ
  areaSqFt : ℝ

/-- Module state of the shoelace variant. -/
structure ShoeState where
  selections : List ShoeSel
  status : StatusMsg

/-- Source `savePolygon(pointsCss)`. -/
noncomputable def savePolygon (w h : ℚ) (pointsCss : List Pt)
    (labelInput : Option String) (sideResps : List JNum) (st : ShoeState) :
    ShoeState :=
  if pointsCss.length < 3 then
    { st with status := .msg "Custom shape needs at least 3 points." }
  else
    let label := Est.promptLabel labelInput ("Area " ++ toString (st.selections.length + 1))
    match collectSides pointsCss.length sideResps with
    | none => { st with status := .msg "Cancelled polygon save." }
    | some sideFeet =>
      let totalFt := sideFeet.sum
      let totalPx := (pixelEdgeLengths pointsCss).sum
      let ftPerPx : ℝ := if 0 < totalPx then ((totalFt : ℚ) : ℝ) / totalPx else 0
      let areaPx2 := polygonAreaPx pointsCss
      let areaSqFt : ℝ := ((areaPx2 : ℚ) : ℝ) * (ftPerPx * ftPerPx)
      { st with
        selections := st.selections ++
          [{ type := "poly"
             label := label
             geoPoints := pointsCss.map (cssToNorm w h)
             realSideFeet := sideFeet
             realFtPerPx := ftPerPx
             areaSqFt := areaSqFt }]
        status := .saved label areaSqFt }

/-- Written after the spec's own words, for comparison with the source's
`polygonAreaPx`: the shoelace sum over consecutive cyclic pairs, obtained
by zipping the point list with its rotation by one. -/
def specShoelaceAreaPx (points : List Pt) : ℚ :=
  |((points.zip (points.rotate 1)).map
      (fun pq => pq.1.x * pq.2.y - pq.2.x * pq.1.y)).sum| / 2

/-- An empty shoelace-variant state, used by concrete witnesses. -/
def shoeState0 : ShoeState := { selections := [], status := .msg "" }

/-- A 10×10-pixel square, drawn counter-clockwise. -/
def squarePts : List Pt := [⟨0, 0⟩, ⟨10, 0⟩, ⟨10, 10⟩, ⟨0, 10⟩]

end Shoe

end Flooring

/-
  ===========================================================================
  Theorems.
  ===========================================================================
-/

namespace Flooring

lemma jadd_num_zero (x : JNum) : jadd x (JNum.num 0) = x := by
  cases x <;> simp [jadd]

lemma jsOr0_idem (n : JNum) : jsOr0 (jsOr0 n) = jsOr0 n := by
  cases n with
  | num q =>
    by_cases h : q = 0 <;> simp [jsOr0, h]
  | nan => simp [jsOr0]
  | inf => simp [jsOr0]
  | ninf => simp [jsOr0]

lemma if_string_self (s : String) : (if s = "" then "" else s) = s := by
  by_cases h : s = "" <;> simp [h]

lemma round2_zero : round2 0 = 0 := by
  norm_num [round2]

lemma roundtrip_contrib (a : JAtom) (h1 : a ≠ JAtom.jnum JNum.inf)
    (h2 : a ≠ JAtom.jnum JNum.ninf) :
    jsOr0 (toNumber (JAtom.jnum (jsOr0 (toNumber (jsonCopyAtom a)))))
      = jsOr0 (toNumber a) := by
  cases a with
  | jnum n =>
    cases n with
    | num q => simp [jsonCopyAtom, toNumber, jsOr0_idem]
    | nan => simp [jsonCopyAtom, toNumber, jsOr0]
    | inf => exact absurd rfl h1
    | ninf => exact absurd rfl h2
  | jstr v =>
    cases v with
    | none => simp [jsonCopyAtom, toNumber, jsOr0]
    | some q => simp [jsonCopyAtom, toNumber, jsOr0_idem]
  | jnull => simp [jsonCopyAtom, toNumber, jsOr0]
  | jundef => simp [jsonCopyAtom, toNumber, jsOr0]
  | jbool b => cases b <;> simp [jsonCopyAtom, toNumber, jsOr0_idem]

lemma fmt2Val_jsOr0 (n : JNum) : fmt2Val (jsOr0 n) = fmt2Val n := by
  cases n with
  | num q => by_cases h : q = 0 <;> simp [jsOr0, h]
  | nan => simp [jsOr0, fmt2Val, round2_zero]
  | inf => simp [jsOr0]
  | ninf => simp [jsOr0]

lemma roundtrip_item (a : JAtom) (h1 : a ≠ JAtom.jnum JNum.inf)
    (h2 : a ≠ JAtom.jnum JNum.ninf) :
    fmt2Val (toNumber (JAtom.jnum (jsOr0 (toNumber (jsonCopyAtom a)))))
      = fmt2Val (toNumber a) := by
  cases a with
  | jnum n =>
    cases n with
    | num q => simp [jsonCopyAtom, toNumber, fmt2Val_jsOr0]
    | nan => simp [jsonCopyAtom, toNumber, jsOr0, fmt2Val, round2_zero]
    | inf => exact absurd rfl h1
    | ninf => exact absurd rfl h2
  | jstr v =>
    cases v with
    | none => simp [jsonCopyAtom, toNumber, jsOr0, fmt2Val, round2_zero]
    | some q => simp [jsonCopyAtom, toNumber, fmt2Val_jsOr0]
  | jnull => simp [jsonCopyAtom, toNumber, jsOr0, fmt2Val, round2_zero]
  | jundef => simp [jsonCopyAtom, toNumber, jsOr0, fmt2Val, round2_zero]
  | jbool b => cases b <;> simp [jsonCopyAtom, toNumber, fmt2Val_jsOr0]

lemma area_label_ne_empty (n : ℕ) : ("Area " ++ toString n) ≠ "" := by
  intro h
  have h2 : ("Area " ++ toString n).length = 0 := by rw [h]; rfl
  rw [String.length_append] at h2
  have h5 : ("Area " : String).length = 5 := rfl
  omega

/-- C5: for every input state whose `selections` field is not an array
(including a null/undefined state object), `importFullEstimatorState`
throws `Invalid project data.` before performing any mutation, so the
ledger, mode and in-progress drawing state stay unchanged. -/
theorem c5_import_rejects (payload : Option Est.ImportPayload) (st : Est.AppState)
    (hbad : payload = none ∨ ∃ p, payload = some p ∧ p.selections = none) :
    Est.importFullEstimatorState payload st = Except.error "Invalid project data." := by
  rcases hbad with h | ⟨p, hp, hsel⟩
  · subst h; rfl
  · subst hp
    simp [Est.importFullEstimatorState, hsel]

theorem c5_import_rejects_witness :
    Est.importFullEstimatorState none Est.state0 = Except.error "Invalid project data." :=
  c5_import_rejects none Est.state0 (Or.inl rfl)

/-- C9 counterexample: the object literal committed to the ledger by a
successful append (`saveRect` and its siblings) has exactly the fields
`type`, `label`, `geo`, `real`, `areaSqFt` — it carries no `id` field at
all, contradicting the claim that every appended Selection carries a
unique id. -/
theorem c9_id_counterexample : "id" ∉ Est.selectionFieldNames := by decide

/-- C9 amended: every successful append creates a Selection without any
id field (removal is positional); the label defaults to `"Area N"` with
`N` = current selection count + 1 when the user supplies no label, and
the appended entry is exactly the five-field literal of the source. -/
theorem c9_append_label_no_id (w h : ℚ) (labelInput : Option String)
    (hno : labelInput.getD "" = "")
    (wq hq : ℚ) (hw : 0 < wq) (hh : 0 < hq) (p1 p2 : Pt) (st : Est.AppState) :
    (Est.saveRect w h labelInput (JNum.num wq) (JNum.num hq) p1 p2 st).selections
      = st.selections ++
        [{ type := "rect"
           label := "Area " ++ toString (st.selections.length + 1)
           geo := Est.Geo.rect (cssToNorm w h p1) (cssToNorm w h p2)
           real := Est.RealMeas.rectR wq hq
           areaSqFt := JAtom.jnum (JNum.num (wq * hq)) }]
      ∧ "id" ∉ Est.selectionFieldNames := by
  constructor
  · simp only [Est.saveRect, Est.promptNumber, Est.promptLabel, hno,
      if_neg (area_label_ne_empty (st.selections.length + 1)),
      if_neg (not_le.2 hw), if_neg (not_le.2 hh)]
    simp
  · decide

theorem c9_append_label_witness :
    (Est.saveRect 100 100 none (JNum.num 10) (JNum.num 12) ⟨0, 0⟩ ⟨50, 50⟩ Est.state0).selections
      = Est.state0.selections ++
        [{ type := "rect"
           label := "Area " ++ toString (Est.state0.selections.length + 1)
           geo := Est.Geo.rect (cssToNorm 100 100 ⟨0, 0⟩) (cssToNorm 100 100 ⟨50, 50⟩)
           real := Est.RealMeas.rectR 10 12
           areaSqFt := JAtom.jnum (JNum.num (10 * 12)) }]
      ∧ "id" ∉ Est.selectionFieldNames :=
  c9_append_label_no_id 100 100 none rfl 10 12 (by norm_num) (by norm_num)
    ⟨0, 0⟩ ⟨50, 50⟩ Est.state0

/-- C10: the derived total is never NaN-poisoned: a selection whose
`areaSqFt` coerces to NaN contributes 0 to the running total (appending it
leaves the total unchanged), `fmt2` maps every non-finite number to
`"0.00"`, and the snapshot's `totalSqFt` and per-item `areaSqFt` are
always finite numbers. -/
theorem c10_total_never_nan :
    (∀ a : JAtom, toNumber a = JNum.nan → jsOr0 (toNumber a) = JNum.num 0)
    ∧ (∀ (sels : List Est.Sel) (s : Est.Sel), toNumber s.areaSqFt = JNum.nan →
        Est.recomputeTotal (sels ++ [s]) = Est.recomputeTotal sels)
    ∧ (fmt2 JNum.nan = "0.00" ∧ fmt2 JNum.inf = "0.00" ∧ fmt2 JNum.ninf = "0.00")
    ∧ ∀ sels : List Est.Sel,
        (∃ q : ℚ, (Est.getEstimatorSnapshot sels).totalSqFt = JNum.num q)
        ∧ ∀ it ∈ (Est.getEstimatorSnapshot sels).selections,
            ∃ r : ℚ, it.areaSqFt = JNum.num r := by
  refine ⟨?_, ?_, ⟨rfl, rfl, rfl⟩, ?_⟩
  · intro a h; rw [h]; rfl
  · intro sels s h
    unfold Est.recomputeTotal
    rw [List.foldl_append]
    simp only [List.foldl_cons, List.foldl_nil, h]
    exact jadd_num_zero _
  · intro sels
    refine ⟨⟨fmt2Val (Est.recomputeTotal sels), rfl⟩, ?_⟩
    intro it hit
    simp only [Est.getEstimatorSnapshot, List.mem_map] at hit
    obtain ⟨s, _, rfl⟩ := hit
    exact ⟨_, rfl⟩

theorem c10_total_never_nan_witness :
    jsOr0 (toNumber JAtom.jundef) = JNum.num 0 :=
  c10_total_never_nan.1 JAtom.jundef rfl

lemma clamp01_nonneg (q : ℚ) : 0 ≤ clamp01 q := le_max_left 0 _

lemma clamp01_le_one (q : ℚ) : clamp01 q ≤ 1 := max_le zero_le_one (min_le_left 1 q)

lemma clamp01_of_bounds {q : ℚ} (h0 : 0 ≤ q) (h1 : q ≤ 1) : clamp01 q = q := by
  rw [clamp01, min_eq_right h1, max_eq_right h0]

/-- C6: `cssToNorm` divides by the canvas dimensions and clamps both axes
to `[0,1]`; `normToCss` multiplies back with no clamping, so in-bounds
pixel points round-trip exactly, while a unit point with out-of-range
coordinates (which nothing prevents from being stored, e.g. via import)
maps outside the canvas bounds. -/
theorem c6_normalization (w h : ℚ) (p : Pt) (hw : 1 ≤ w) (hh : 1 ≤ h) :
    cssToNorm w h p = ⟨clamp01 (p.x / w), clamp01 (p.y / h)⟩
    ∧ (0 ≤ (cssToNorm w h p).x ∧ (cssToNorm w h p).x ≤ 1
        ∧ 0 ≤ (cssToNorm w h p).y ∧ (cssToNorm w h p).y ≤ 1)
    ∧ (∀ u : Pt, normToCss w h u = ⟨u.x * w, u.y * h⟩)
    ∧ (0 ≤ p.x → p.x ≤ w → 0 ≤ p.y → p.y ≤ h →
        normToCss w h (cssToNorm w h p) = p)
    ∧ (∃ (u : Pt) (w2 h2 : ℚ), 1 ≤ w2 ∧ 1 ≤ h2 ∧ w2 < (normToCss w2 h2 u).x) := by
  have hmw : max 1 w = w := max_eq_right hw
  have hmh : max 1 h = h := max_eq_right hh
  have hw0 : (0 : ℚ) < w := lt_of_lt_of_le one_pos hw
  have hh0 : (0 : ℚ) < h := lt_of_lt_of_le one_pos hh
  refine ⟨?_, ⟨?_, ?_, ?_, ?_⟩, ?_, ?_, ?_⟩
  · simp [cssToNorm, hmw, hmh]
  · exact clamp01_nonneg _
  · exact clamp01_le_one _
  · exact clamp01_nonneg _
  · exact clamp01_le_one _
  · intro u; simp [normToCss, hmw, hmh]
  · intro hx0 hxw hy0 hyh
    obtain ⟨px, py⟩ := p
    simp only [cssToNorm, normToCss, hmw, hmh]
    have hx : clamp01 (px / w) = px / w :=
      clamp01_of_bounds (div_nonneg hx0 hw0.le) ((div_le_one hw0).2 hxw)
    have hy : clamp01 (py / h) = py / h :=
      clamp01_of_bounds (div_nonneg hy0 hh0.le) ((div_le_one hh0).2 hyh)
    simp only [hx, hy]
    congr 1
    · exact div_mul_cancel₀ px hw0.ne'
    · exact div_mul_cancel₀ py hh0.ne'
  · exact ⟨⟨2, 2⟩, 1, 1, le_refl 1, le_refl 1, by norm_num [normToCss]⟩

theorem c6_normalization_witness :
    (1 : ℚ) ≤ 100 ∧ (1 : ℚ) ≤ 50
    ∧ normToCss 100 50 (cssToNorm 100 50 ⟨20, 30⟩) = ⟨20, 30⟩ :=
  ⟨by norm_num, by norm_num,
    (c6_normalization 100 50 ⟨20, 30⟩ (by norm_num) (by norm_num)).2.2.2.1
      (by norm_num) (by norm_num) (by norm_num) (by norm_num)⟩

/-- C8: releasing the mouse on a rectangle drag whose end points lie
closer than 6 pixels appends nothing: the ledger is untouched, no prompt
response is consumed (the result does not depend on any of them), and the
handler only updates the status message and clears the transient drag
state. -/
theorem c8_short_drag_discarded (w h : ℚ) (labelInput : Option String)
    (r1 r2 : JNum) (st : Est.AppState) (a b : Pt)
    (hmode : st.mode = "rect") (hdrag : st.isDragging = true)
    (hs : st.dragStart = some a) (he : st.dragEnd = some b)
    (hclose : dist a b < 6) :
    Est.handleMouseUp w h labelInput r1 r2 st =
      { st with
        isDragging := false
        status := "Drag a bigger rectangle."
        dragStart := none
        dragEnd := none
        circleCenter := none
        circleEdge := none } := by
  unfold Est.handleMouseUp
  rw [hdrag]
  simp only [Bool.not_true, Bool.false_eq_true, if_false, hmode, hs, he,
    if_pos hclose]
  simp

theorem c8_short_drag_witness :
    Est.handleMouseUp 100 100 none JNum.nan JNum.nan
      { Est.state0 with isDragging := true, dragStart := some ⟨0, 0⟩, dragEnd := some ⟨3, 4⟩ }
      = { Est.state0 with
          isDragging := false
          status := "Drag a bigger rectangle."
          dragStart := none
          dragEnd := none
          circleCenter := none
          circleEdge := none } := by
  have h5 : dist ⟨0, 0⟩ ⟨3, 4⟩ < 6 := by
    unfold dist
    rw [show ((distSq ⟨0, 0⟩ ⟨3, 4⟩ : ℚ) : ℝ) = 5 ^ 2 by norm_num [distSq]]
    rw [Real.sqrt_sq (by norm_num : (0 : ℝ) ≤ 5)]
    norm_num
  exact c8_short_drag_discarded 100 100 none JNum.nan JNum.nan _ ⟨0, 0⟩ ⟨3, 4⟩
    rfl rfl rfl rfl h5

lemma foldl_jadd_congr (g g2 : Est.Sel → JNum) (l : List Est.Sel)
    (hpt : ∀ s ∈ l, g s = g2 s) :
    ∀ acc, l.foldl (fun acc s => jadd acc (g s)) acc
      = l.foldl (fun acc s => jadd acc (g2 s)) acc := by
  induction l with
  | nil => intro acc; rfl
  | cons hd tl ih =>
    intro acc
    simp only [List.foldl_cons]
    rw [hpt hd (by simp)]
    exact ih (fun s hs => hpt s (by simp [hs])) _

lemma recomputeTotal_map_congr (f : Est.Sel → Est.Sel) (l : List Est.Sel)
    (hpt : ∀ s ∈ l, jsOr0 (toNumber (f s).areaSqFt) = jsOr0 (toNumber s.areaSqFt)) :
    Est.recomputeTotal (l.map f) = Est.recomputeTotal l := by
  unfold Est.recomputeTotal
  rw [List.foldl_map]
  exact foldl_jadd_congr _ _ l hpt _

lemma roundtripSel_contrib (s : Est.Sel)
    (h1 : s.areaSqFt ≠ JAtom.jnum JNum.inf) (h2 : s.areaSqFt ≠ JAtom.jnum JNum.ninf) :
    jsOr0 (toNumber (Est.roundtripSel s).areaSqFt) = jsOr0 (toNumber s.areaSqFt) :=
  roundtrip_contrib s.areaSqFt h1 h2

lemma roundtripSel_label (s : Est.Sel) : (Est.roundtripSel s).label = s.label :=
  if_string_self s.label

/-- C4 counterexample: the claim fails for a reachable ledger holding an
`Infinity`-valued `areaSqFt` (importable, since the import coercion
`Number(x) || 0` keeps `Infinity`): before export the snapshot total is
`Number(fmt2(Infinity)) = 0`, but the JSON serialisation turns `Infinity`
into `null`, so after `importState(exportState())` the total of the same
ledger is `5`. -/
theorem c4_roundtrip_counterexample :
    (Est.getEstimatorSnapshot Est.infPoisonedState.selections).totalSqFt = JNum.num 0
    ∧ Est.roundtripTotalOf Est.infPoisonedState = JNum.num 5
    ∧ Est.roundtripTotalOf Est.infPoisonedState
        ≠ (Est.getEstimatorSnapshot Est.infPoisonedState.selections).totalSqFt := by
  have h0 : (Est.getEstimatorSnapshot Est.infPoisonedState.selections).totalSqFt
      = JNum.num 0 := by
    norm_num [Est.getEstimatorSnapshot, Est.recomputeTotal, Est.infPoisonedState,
      Est.state0, List.foldl_cons, List.foldl_nil, toNumber, jsOr0, jadd, fmt2Val,
      round2]
  have h5 : Est.roundtripTotalOf Est.infPoisonedState = JNum.num 5 := by
    norm_num [Est.roundtripTotalOf, Est.importFullEstimatorState, Est.payloadOfExported,
      Est.exportFullEstimatorState, Est.infPoisonedState, Est.state0, Est.jsonCopySel,
      jsonCopyAtom, Est.getEstimatorSnapshot, Est.recomputeTotal, List.foldl_cons,
      List.foldl_nil, List.map_cons, List.map_nil, toNumber, jsOr0, jadd, fmt2Val,
      round2]
  refine ⟨h0, h5, ?_⟩
  rw [h0, h5]
  decide

/-- C4 amended: for every ledger state none of whose selections carries an
infinite `areaSqFt` (NaN and any finite junk are fine),
`importState(exportState())` succeeds and reproduces an equivalent ledger:
identical `snapshot()` output (total, count, and per-item label, type,
area and measurement) and the same drawing mode. -/
theorem c4_roundtrip_amended (st : Est.AppState)
    (hfin : ∀ s ∈ st.selections,
      s.areaSqFt ≠ JAtom.jnum JNum.inf ∧ s.areaSqFt ≠ JAtom.jnum JNum.ninf) :
    ∃ st2 : Est.AppState,
      Est.importFullEstimatorState
        (some (Est.payloadOfExported (Est.exportFullEstimatorState st))) st
        = Except.ok st2
      ∧ Est.getEstimatorSnapshot st2.selections = Est.getEstimatorSnapshot st.selections
      ∧ st2.mode = st.mode := by
  refine ⟨_, rfl, ?_, ?_⟩
  · show Est.getEstimatorSnapshot ((st.selections.map Est.jsonCopySel).map _)
      = Est.getEstimatorSnapshot st.selections
    rw [List.map_map]
    show Est.getEstimatorSnapshot (st.selections.map Est.roundtripSel)
      = Est.getEstimatorSnapshot st.selections
    have htot : Est.recomputeTotal (st.selections.map Est.roundtripSel)
        = Est.recomputeTotal st.selections :=
      recomputeTotal_map_congr _ _
        (fun s hs => roundtripSel_contrib s (hfin s hs).1 (hfin s hs).2)
    simp only [Est.getEstimatorSnapshot, htot, List.length_map, List.map_map]
    congr 1
    refine List.map_congr_left (fun s hs => ?_)
    simp [Est.roundtripSel, Est.jsonCopySel, if_string_self,
      roundtrip_item s.areaSqFt (hfin s hs).1 (hfin s hs).2]
  · show (match some st.mode with
      | some m => if m = "rect" ∨ m = "circle" ∨ m = "tri" then m else st.mode
      | none => st.mode) = st.mode
    by_cases hm : st.mode = "rect" ∨ st.mode = "circle" ∨ st.mode = "tri" <;>
      simp [hm]

lemma askLength_sound (allowZero : Bool) :
    ∀ (events : List Poly.ModalEvent) (v : ℚ),
      Poly.askLengthFeetInches allowZero events = some v →
      ∃ f i : ℚ, 0 ≤ f ∧ 0 ≤ i ∧ i ≤ 11 ∧ v = f + i / 12
        ∧ (allowZero = true ∨ 0 < v) := by
  intro events
  induction events with
  | nil => intro v hv; simp [Poly.askLengthFeetInches] at hv
  | cons e rest ih =>
    intro v hv
    cases e with
    | cancel => simp [Poly.askLengthFeetInches] at hv
    | ok f i =>
      simp only [Poly.askLengthFeetInches] at hv
      cases f with
      | num fq =>
        dsimp only at hv
        by_cases hf : fq < 0
        · rw [if_pos hf] at hv
          exact ih v hv
        · rw [if_neg hf] at hv
          cases i with
          | num iq =>
            dsimp only at hv
            by_cases hi : iq < 0 ∨ 11 < iq
            · rw [if_pos hi] at hv
              exact ih v hv
            · rw [if_neg hi] at hv
              push_neg at hi
              by_cases hz : allowZero = false ∧ fq + iq / 12 ≤ 0
              · rw [if_pos hz] at hv
                exact ih v hv
              · rw [if_neg hz] at hv
                have hveq : fq + iq / 12 = v := Option.some.inj hv
                refine ⟨fq, iq, not_lt.1 hf, hi.1, hi.2, hveq.symm, ?_⟩
                cases allowZero with
                | true => exact Or.inl rfl
                | false =>
                  refine Or.inr ?_
                  have := fun hle => hz ⟨rfl, hle⟩
                  rw [← hveq]
                  exact not_le.1 (fun hle => hz ⟨rfl, hle⟩)
          | nan => exact ih v hv
          | inf => exact ih v hv
          | ninf => exact ih v hv
      | nan => exact ih v hv
      | inf => exact ih v hv
      | ninf => exact ih v hv

/-- C7: the feet+inches modal resolves, on confirmation, to the decimal
feet value `feet + inches/12` for some accepted `feet ≥ 0` and
`0 ≤ inches ≤ 11`, and (unless `allowZero`) that value is strictly
positive — invalid entries only re-prompt; Cancel resolves `null`; and a
cancelled closing-side prompt leaves the polygon draft and the ledger
untouched (only the status changes), so no shape is saved. -/
theorem c7_feet_inches_modal :
    (∀ (allowZero : Bool) (events : List Poly.ModalEvent) (v : ℚ),
      Poly.askLengthFeetInches allowZero events = some v →
      ∃ f i : ℚ, 0 ≤ f ∧ 0 ≤ i ∧ i ≤ 11 ∧ v = f + i / 12
        ∧ (allowZero = true ∨ 0 < v))
    ∧ (∀ (allowZero : Bool) (events : List Poly.ModalEvent),
        Poly.askLengthFeetInches allowZero (Poly.ModalEvent.cancel :: events) = none)
    ∧ (∀ (w h : ℚ) (closingEvents : List Poly.ModalEvent) (pr : Poly.PolyPrompts)
        (li : Option String) (st : Poly.PolyState),
        Poly.askLengthFeetInches false closingEvents = none →
        3 ≤ st.polyPoints.length →
        Poly.finishPolygonAskClosingAndSave w h "poly" closingEvents pr li st
          = { st with status := StatusMsg.msg "Finish cancelled." }) := by
  refine ⟨askLength_sound, ?_, ?_⟩
  · intro allowZero events; rfl
  · intro w h closingEvents pr li st hcancel hlen
    unfold Poly.finishPolygonAskClosingAndSave
    rw [if_neg (by simp), if_neg (not_lt.2 hlen), hcancel]

theorem c7_feet_inches_modal_witness :
    ∃ f i : ℚ, 0 ≤ f ∧ 0 ≤ i ∧ i ≤ 11 ∧ (7 / 2 : ℚ) = f + i / 12
      ∧ (false = true ∨ 0 < (7 / 2 : ℚ)) :=
  c7_feet_inches_modal.1 false [Poly.ModalEvent.ok (JNum.num 3) (JNum.num 6)] (7 / 2)
    (by norm_num [Poly.askLengthFeetInches])

lemma computePoly_three (a b c : ℚ) (pr : Poly.PolyPrompts) :
    Poly.computePolyAreaFromUser [a, b, c] pr =
      match Poly.heronArea a b c with
      | none => none
      | some area => some ⟨area, "triangle (3 sides)", [a, b, c], []⟩ := by
  simp [Poly.computePolyAreaFromUser]

/-- C1: a polygon completed with exactly three collected side lengths is
measured by Heron's formula: when the radicand `s(s-a)(s-b)(s-c)` is not
strictly positive the computation fails and nothing is appended to the
ledger; otherwise the saved area is `√(s(s-a)(s-b)(s-c))`.  Sides 3, 4, 5
give `heronArea = 6` (displayed as `6.00`). -/
theorem c1_heron_three_sides :
    (∀ (a b c : ℚ), 0 < a → 0 < b → 0 < c →
      Poly.heronInside a b c ≤ 0 →
      ∀ (w h : ℚ) (pts : List Pt) (pr : Poly.PolyPrompts) (li : Option String)
        (st : Poly.PolyState), pts.length = 3 →
        (Poly.finishPolygonAndSave w h pts [a, b, c] pr li st).selections
          = st.selections)
    ∧ (∀ (a b c : ℚ), 0 < a → 0 < b → 0 < c →
        0 < Poly.heronInside a b c →
        ∀ (w h : ℚ) (pts : List Pt) (pr : Poly.PolyPrompts) (li : Option String)
          (st : Poly.PolyState), pts.length = 3 →
          (Poly.finishPolygonAndSave w h pts [a, b, c] pr li st).selections
            = st.selections ++
              [{ type := "poly"
                 label := Est.promptLabel li ("Area " ++ toString (st.selections.length + 1))
                 geoPoints := pts.map (cssToNorm w h)
                 realSideFeet := [a, b, c]
                 realMethod := "triangle (3 sides)"
                 areaSqFt := Real.sqrt ((Poly.heronInside a b c : ℚ) : ℝ) }])
    ∧ Poly.heronArea 3 4 5 = some 6 := by
  refine ⟨?_, ?_, ?_⟩
  · intro a b c ha hb hc hrad w h pts pr li st hlen
    unfold Poly.finishPolygonAndSave
    rw [if_neg (by omega : ¬pts.length < 3), if_neg (by simp [hlen])]
    rw [computePoly_three]
    unfold Poly.heronArea
    rw [if_pos hrad]
  · intro a b c ha hb hc hrad w h pts pr li st hlen
    unfold Poly.finishPolygonAndSave
    rw [if_neg (by omega : ¬pts.length < 3), if_neg (by simp [hlen])]
    rw [computePoly_three]
    unfold Poly.heronArea
    rw [if_neg (not_le.2 hrad)]
  · have h36 : Poly.heronInside 3 4 5 = 36 := by norm_num [Poly.heronInside]
    unfold Poly.heronArea
    rw [h36, if_neg (by norm_num)]
    rw [show ((36 : ℚ) : ℝ) = 6 ^ 2 by norm_num]
    rw [Real.sqrt_sq (by norm_num : (0 : ℝ) ≤ 6)]

theorem c1_heron_three_sides_witness :
    (Poly.finishPolygonAndSave 100 100 [⟨0, 0⟩, ⟨30, 0⟩, ⟨30, 40⟩] [3, 4, 5]
        Poly.rectChoicePrompts none Poly.polyState0).selections
      = Poly.polyState0.selections ++
        [{ type := "poly"
           label := Est.promptLabel none
             ("Area " ++ toString (Poly.polyState0.selections.length + 1))
           geoPoints := [⟨0, 0⟩, ⟨30, 0⟩, ⟨30, 40⟩].map (cssToNorm 100 100)
           realSideFeet := [3, 4, 5]
           realMethod := "triangle (3 sides)"
           areaSqFt := Real.sqrt ((Poly.heronInside 3 4 5 : ℚ) : ℝ) }] :=
  c1_heron_three_sides.2.1 3 4 5 (by norm_num) (by norm_num) (by norm_num)
    (by norm_num [Poly.heronInside]) 100 100 [⟨0, 0⟩, ⟨30, 0⟩, ⟨30, 40⟩]
    Poly.rectChoicePrompts none Poly.polyState0 rfl

/-- C3: completing a polygon with exactly four collected side lengths and
choosing the rectangle/square sub-method computes the product of the two
adjacent sides the user entered first; with adjacent sides 8 ft and 5 ft
the saved area is 40 sq ft. -/
theorem c3_rectangle_submethod :
    (∀ (s0 s1 s2 s3 : ℚ) (pr : Poly.PolyPrompts),
      Poly.parseChoice pr.choiceRaw = some "rectangle" →
      Poly.computePolyAreaFromUser [s0, s1, s2, s3] pr
        = some { areaSqFt := ((s0 * s1 : ℚ) : ℝ)
                 method := "rectangle/square (adjacent sides)"
                 detailSides := [s0, s1, s2, s3]
                 detailNums := [("length", s0), ("width", s1)] })
    ∧ (∀ (w h : ℚ) (pts : List Pt) (li : Option String) (st : Poly.PolyState),
        pts.length = 4 →
        ∃ sel : Poly.PolySel,
          (Poly.finishPolygonAndSave w h pts [8, 5, 8, 5]
              Poly.rectChoicePrompts li st).selections
            = st.selections ++ [sel]
          ∧ sel.areaSqFt = 40) := by
  constructor
  · intro s0 s1 s2 s3 pr hchoice
    simp [Poly.computePolyAreaFromUser, hchoice]
  · intro w h pts li st hlen
    have hchoice : Poly.parseChoice Poly.rectChoicePrompts.choiceRaw = some "rectangle" := by
      simp [Poly.parseChoice, Poly.rectChoicePrompts, Poly.jsToLower, Poly.jsStartsWithChar]
    unfold Poly.finishPolygonAndSave
    rw [if_neg (by omega : ¬pts.length < 3), if_neg (by simp [hlen])]
    rw [show Poly.computePolyAreaFromUser [8, 5, 8, 5] Poly.rectChoicePrompts
        = some { areaSqFt := (((8 : ℚ) * 5 : ℚ) : ℝ)
                 method := "rectangle/square (adjacent sides)"
                 detailSides := [8, 5, 8, 5]
                 detailNums := [("length", 8), ("width", 5)] } from by
      simp [Poly.computePolyAreaFromUser, hchoice]]
    refine ⟨_, rfl, ?_⟩
    norm_num

theorem c3_rectangle_submethod_witness :
    ∃ sel : Poly.PolySel,
      (Poly.finishPolygonAndSave 100 100 [⟨0, 0⟩, ⟨80, 0⟩, ⟨80, 50⟩, ⟨0, 50⟩]
          [8, 5, 8, 5] Poly.rectChoicePrompts none Poly.polyState0).selections
        = Poly.polyState0.selections ++ [sel]
      ∧ sel.areaSqFt = 40 :=
  c3_rectangle_submethod.2 100 100 [⟨0, 0⟩, ⟨80, 0⟩, ⟨80, 50⟩, ⟨0, 50⟩] none
    Poly.polyState0 rfl

lemma foldl_add_eq_sum (g : ℕ → ℚ) (l : List ℕ) :
    l.foldl (fun acc i => acc + g i) 0 = (l.map g).sum := by
  rw [← List.foldl_map, List.sum_eq_foldl]

lemma promptNumber_pos (r : JNum) (q : ℚ) (h : Est.promptNumber r = some q) :
    0 < q := by
  cases r with
  | num x =>
    simp only [Est.promptNumber] at h
    by_cases hx : x ≤ 0
    · rw [if_pos hx] at h; exact absurd h (by simp)
    · rw [if_neg hx] at h
      cases h
      exact not_le.1 hx
  | nan => simp [Est.promptNumber] at h
  | inf => simp [Est.promptNumber] at h
  | ninf => simp [Est.promptNumber] at h

lemma collectSides_pos : ∀ (n : ℕ) (resps : List JNum) (fs : List ℚ),
    Shoe.collectSides n resps = some fs → ∀ f ∈ fs, 0 < f := by
  intro n
  induction n with
  | zero =>
    intro resps fs h f hf
    simp only [Shoe.collectSides, Option.some.injEq] at h
    subst h
    simp at hf
  | succ n ih =>
    intro resps fs h f hf
    cases resps with
    | nil => simp [Shoe.collectSides] at h
    | cons r rest =>
      simp only [Shoe.collectSides] at h
      cases hr : Est.promptNumber r with
      | none => rw [hr] at h; simp at h
      | some ft =>
        rw [hr] at h
        cases hc : Shoe.collectSides n rest with
        | none => rw [hc] at h; simp at h
        | some fs2 =>
          rw [hc] at h
          simp only [Option.map] at h
          cases h
          rcases List.mem_cons.1 hf with hfe | hfm
          · exact hfe ▸ promptNumber_pos r ft hr
          · exact ih rest fs2 hc f hfm

lemma shoelace_spec_eq (pts : List Pt) (hlen : 3 ≤ pts.length) :
    Shoe.polygonAreaPx pts = Shoe.specShoelaceAreaPx pts := by
  have hpos : 0 < pts.length := by omega
  unfold Shoe.polygonAreaPx Shoe.specShoelaceAreaPx
  rw [if_neg (by omega)]
  dsimp only
  congr 1
  rw [foldl_add_eq_sum]
  congr 1
  congr 1
  apply List.ext_getElem
  · simp
  · intro i h1 h2
    have hi : i < pts.length := by simpa using h1
    have hmod : (i + 1) % pts.length < pts.length := Nat.mod_lt _ hpos
    simp only [List.getElem_map, List.getElem_range, List.getElem_zip,
      List.getElem_rotate, List.length_rotate]
    rw [List.getD_eq_getElem pts ⟨0, 0⟩ hi, List.getD_eq_getElem pts ⟨0, 0⟩ hmod]

/-- C2: in the shoelace variant, every finished polygon of at least three
points whose per-edge prompts all succeed (forcing every entered side
length to be positive) stores
`areaSqFt = A_px * (F/P)^2` with `A_px` the pixel shoelace area
(`polygonAreaPx` agrees with the spec's cyclic-sum formula), `F` the sum
of the entered real side lengths and `P` the sum of the pixel edge
lengths, with scale 0 when `P = 0`. -/
theorem c2_shoelace_scaled_area :
    (∀ pts : List Pt, 3 ≤ pts.length →
      Shoe.polygonAreaPx pts = Shoe.specShoelaceAreaPx pts)
    ∧ (∀ (w h : ℚ) (pts : List Pt) (li : Option String) (resps : List JNum)
        (fs : List ℚ) (st : Shoe.ShoeState),
        3 ≤ pts.length →
        Shoe.collectSides pts.length resps = some fs →
        (∀ f ∈ fs, 0 < f)
        ∧ ∃ sel : Shoe.ShoeSel,
            (Shoe.savePolygon w h pts li resps st).selections
              = st.selections ++ [sel]
            ∧ sel.realSideFeet = fs
            ∧ sel.areaSqFt
                = ((Shoe.polygonAreaPx pts : ℚ) : ℝ)
                  * (if 0 < (Shoe.pixelEdgeLengths pts).sum
                     then ((fs.sum : ℚ) : ℝ) / (Shoe.pixelEdgeLengths pts).sum
                     else 0) ^ 2) := by
  refine ⟨shoelace_spec_eq, ?_⟩
  intro w h pts li resps fs st hlen hresp
  refine ⟨collectSides_pos _ _ _ hresp, ?_⟩
  unfold Shoe.savePolygon
  rw [if_neg (by omega : ¬pts.length < 3), hresp]
  refine ⟨_, rfl, rfl, ?_⟩
  rw [sq]

theorem c2_shoelace_scaled_area_witness :
    (∀ f ∈ ([5, 5, 5, 5] : List ℚ), 0 < f)
    ∧ ∃ sel : Shoe.ShoeSel,
        (Shoe.savePolygon 100 100 Shoe.squarePts none
            [JNum.num 5, JNum.num 5, JNum.num 5, JNum.num 5]
            Shoe.shoeState0).selections
          = Shoe.shoeState0.selections ++ [sel]
        ∧ sel.realSideFeet = [5, 5, 5, 5]
        ∧ sel.areaSqFt
            = ((Shoe.polygonAreaPx Shoe.squarePts : ℚ) : ℝ)
              * (if 0 < (Shoe.pixelEdgeLengths Shoe.squarePts).sum
                 then ((([5, 5, 5, 5] : List ℚ).sum : ℚ) : ℝ)
                      / (Shoe.pixelEdgeLengths Shoe.squarePts).sum
                 else 0) ^ 2 :=
  c2_shoelace_scaled_area.2 100 100 Shoe.squarePts none
    [JNum.num 5, JNum.num 5, JNum.num 5, JNum.num 5] [5, 5, 5, 5] Shoe.shoeState0
    (by norm_num [Shoe.squarePts])
    (by norm_num [Shoe.squarePts, Shoe.collectSides, Est.promptNumber])

theorem c4_roundtrip_witness :
    (∀ s ∈ Est.state0.selections,
      s.areaSqFt ≠ JAtom.jnum JNum.inf ∧ s.areaSqFt ≠ JAtom.jnum JNum.ninf)
    ∧ ∃ st2 : Est.AppState,
        Est.importFullEstimatorState
          (some (Est.payloadOfExported (Est.exportFullEstimatorState Est.state0))) Est.state0
          = Except.ok st2
        ∧ Est.getEstimatorSnapshot st2.selections
            = Est.getEstimatorSnapshot Est.state0.selections
        ∧ st2.mode = Est.state0.mode :=
  ⟨by simp [Est.state0], c4_roundtrip_amended Est.state0 (by simp [Est.state0])⟩

end Flooring
